import Mathlib

/-!
Verification of the webhook event-authentication and dispatch subsystem
(kittens-inc/webhook). The TypeScript sources are embedded shallowly:

* `CryptoUtils.verifyGitHubSignature` / `CryptoUtils.hexToBuffer`
  (src/utils/crypto.ts) become `verifyGitHubSignature` / `hexToBuffer`.
  The JavaScript platform primitives they rely on are modelled after the
  governing standards:
  - `parseInt(s, 16)` (ECMA-262): skip leading whitespace, optional sign,
    optional `0x`/`0X` marker, then the longest prefix of hex digits; the
    empty prefix gives NaN.  Modelled by `jsParseIntHex` returning
    `Option Int` (`none` = NaN).
  - `Uint8Array` element stores apply ToUint8: NaN becomes 0, other
    integers are reduced mod 2^8 (`jsToUint8`); an out-of-range index
    store is silently ignored.
  - `new Uint8Array(hex.length / 2)` applies ToIndex to the fractional
    length, which truncates (ES2017+ ToIndex does not reject non-integral
    values below 2^53), so an odd-length hex string yields a buffer of
    `floor(n/2)` bytes and the final one-character slice is written out of
    bounds and dropped.  Modelled by `hexPairs`.
  - `crypto.subtle.importKey("raw", k, HMAC/SHA-256)` (W3C WebCrypto):
    importing a zero-length raw HMAC key throws a DataError.  Modelled by
    `importHmacKeyBytes`.
  - `crypto.subtle.verify("HMAC", key, sig, data)` computes the
    HMAC-SHA-256 tag of `data` and compares it with `sig` for byte
    equality.  Modelled by `subtleVerifyHmac` on top of an executable
    FIPS 180-4 / RFC 2104 implementation (`sha256`, `hmacSha256`),
    validated below against the standard test vectors.
  - `TextEncoder().encode` is UTF-8 encoding, modelled by `utf8`.
  - `String.prototype.replace(pat, "")` with a string pattern removes the
    first occurrence of `pat` anywhere in the string (`replaceOnce`).
* `WebhookServer.handleGitHubWebhook` (src/main.ts) becomes
  `handleGitHubWebhook`.  `JSON.parse` success is abstracted as a
  predicate parameter; the debug-artifact write has no effect on the
  response and is omitted.  The response is modelled as the HTTP status
  plus the list of handler executions performed.
* `eventManager` (src/managers/event-manager.ts) is not among the
  available sources; its `register`/`lookup`/`emit` contract is modelled
  from the specification (spec sections 4.2 and 4.3) and is marked as such.
* The event handler classes `PushEvent`, `WorkflowRunEvent`,
  `WorkflowJobEvent` become `pushExecute`, `workflowRunExecute`,
  `workflowJobExecute`; the Discord embed string templating (out of scope
  for the spec core, and its `Webhook` helper module is not among the
  sources) is summarised by message records that keep every decision the
  handler code makes (enable flag, action filter, field counts, colors).
* `ConfigManager.validateConfig` defaults (src/config.ts) become
  `defaultConfigModel`.
-/

set_option maxRecDepth 8192

/-! ## JavaScript string and number primitives -/

/-- JavaScript StrWhiteSpace characters relevant to `parseInt` (tab, LF,
VT, FF, CR, space). -/
def isJsWhitespace (c : Char) : Bool :=
  c.toNat = 9 || c.toNat = 10 || c.toNat = 11 || c.toNat = 12 || c.toNat = 13 || c.toNat = 32

/-- Value of a single hexadecimal digit as accepted by `parseInt(_, 16)`:
`0-9`, `a-f`, `A-F`. -/
def hexDigitVal (c : Char) : Option Nat :=
  if 48 ≤ c.toNat ∧ c.toNat ≤ 57 then some (c.toNat - 48)
  else if 97 ≤ c.toNat ∧ c.toNat ≤ 102 then some (c.toNat - 87)
  else if 65 ≤ c.toNat ∧ c.toNat ≤ 70 then some (c.toNat - 55)
  else none

/-- Accumulate the longest prefix of hex digits (ECMA-262 `parseInt`
reads digits until the first non-digit). -/
def parseHexGo (acc : Nat) : List Char → Nat
  | [] => acc
  | c :: cs =>
    match hexDigitVal c with
    | some v => parseHexGo (16 * acc + v) cs
    | none => acc

/-- ECMA-262 `parseInt(s, 16)`: skip whitespace, optional sign, optional
`0x`/`0X`, then the longest hex-digit prefix; `none` models NaN. -/
def jsParseIntHex (s : List Char) : Option Int :=
  let s1 := s.dropWhile isJsWhitespace
  let signed : Int × List Char :=
    match s1 with
    | '-' :: r => (-1, r)
    | '+' :: r => (1, r)
    | _ => (1, s1)
  let s3 : List Char :=
    match signed.2 with
    | '0' :: 'x' :: r => r
    | '0' :: 'X' :: r => r
    | _ => signed.2
  match s3 with
  | [] => none
  | c :: cs =>
    match hexDigitVal c with
    | some v => some (signed.1 * (parseHexGo v cs : Nat))
    | none => none

/-- ECMA-262 ToUint8 as applied by a `Uint8Array` element store: NaN
(`none`) becomes 0, any other integer is reduced modulo 2^8. -/
def jsToUint8 : Option Int → Nat
  | none => 0
  | some v => (v % 256).toNat

/-- One byte of `CryptoUtils.hexToBuffer`:
`parseInt(hex.slice(i, i + 2), 16)` stored into a `Uint8Array` cell. -/
def hexPairByte (p : List Char) : Nat := jsToUint8 (jsParseIntHex p)

/-- The two-character slices visited by the `hexToBuffer` loop that land
inside the `Uint8Array` of length `floor(n / 2)`; for an odd-length input
the final one-character slice is written out of bounds and dropped. -/
def hexPairs : List Char → List (List Char)
  | a :: b :: rest => [a, b] :: hexPairs rest
  | _ => []

/-- `CryptoUtils.hexToBuffer` (src/utils/crypto.ts lines 42-48). -/
def hexToBuffer (hexStr : List Char) : List Nat := (hexPairs hexStr).map hexPairByte

/-- Helper for `replaceOnce`: try to take `pat` off the front of `s`,
returning the remainder on success. -/
def stripLead : List Char → List Char → Option (List Char)
  | [], s => some s
  | _ :: _, [] => none
  | p :: ps, c :: cs => if c = p then stripLead ps cs else none

/-- JavaScript `s.replace(pat, "")` with a non-empty string pattern:
remove the first occurrence of `pat` anywhere in `s`; `s` is unchanged
when `pat` does not occur. -/
def replaceOnce (pat : List Char) : List Char → List Char
  | [] => []
  | c :: cs =>
    match stripLead pat (c :: cs) with
    | some rest => rest
    | none => c :: replaceOnce pat cs

/-- Whether `pat` occurs as a contiguous subsequence of `s`. -/
def occursIn (pat : List Char) : List Char → Bool
  | [] => (stripLead pat []).isSome
  | c :: cs => (stripLead pat (c :: cs)).isSome || occursIn pat cs

/-- The characters of the signature marker removed by
`signature.replace("sha256=", "")`. -/
def sigTag : List Char := "sha256=".data

/-- Whether a signature header literally begins with the `sha256=`
marker. -/
def beginsWithTag (s : String) : Bool := (stripLead sigTag s.data).isSome

/-! ## UTF-8 (`TextEncoder().encode`) -/

/-- UTF-8 encoding of one Unicode scalar value. -/
def utf8EncodeChar (c : Char) : List Nat :=
  let n := c.toNat
  if n < 0x80 then [n]
  else if n < 0x800 then [0xc0 + n / 64, 0x80 + n % 64]
  else if n < 0x10000 then [0xe0 + n / 4096, 0x80 + (n / 64) % 64, 0x80 + n % 64]
  else [0xf0 + n / 262144, 0x80 + (n / 4096) % 64, 0x80 + (n / 64) % 64, 0x80 + n % 64]

/-- UTF-8 encoding of a character list. -/
def utf8Bytes : List Char → List Nat
  | [] => []
  | c :: cs => utf8EncodeChar c ++ utf8Bytes cs

/-- `new TextEncoder().encode(s)`. -/
def utf8 (s : String) : List Nat := utf8Bytes s.data

/-- Lowercase hex digit for a value below 16. -/
def hexDigitChar (n : Nat) : Char := if n < 10 then Char.ofNat (n + 48) else Char.ofNat (n + 87)

/-- Lowercase hex encoding of a byte list (the digest format GitHub puts
after `sha256=` in the signature header). -/
def hexEncode (bs : List Nat) : List Char :=
  bs.foldr (fun b acc => hexDigitChar (b / 16) :: hexDigitChar (b % 16) :: acc) []

/-! ## SHA-256 (FIPS 180-4) and HMAC (RFC 2104), the primitives behind
`crypto.subtle` with algorithm HMAC / SHA-256 -/

def pow32 : Nat := 4294967296

def rotr32 (n x : Nat) : Nat := (x >>> n) ||| ((x <<< (32 - n)) % pow32)

/-- The 64 SHA-256 round constants K0..K63 of FIPS 180-4 (the fractional
parts of the cube roots of the first 64 primes), written in decimal:
K0 = 1116352408 = 0x428a2f98 and so on, row by row. -/
def shaK : List Nat :=
  [1116352408, 1899447441, 3049323471, 3921009573, 961987163, 1508970993,
   2453635748, 2870763221, 3624381080, 310598401, 607225278, 1426881987,
   1925078388, 2162078206, 2614888103, 3248222580, 3835390401, 4022224774,
   264347078, 604807628, 770255983, 1249150122, 1555081692, 1996064986,
   2554220882, 2821834349, 2952996808, 3210313671, 3336571891, 3584528711,
   113926993, 338241895, 666307205, 773529912, 1294757372, 1396182291,
   1695183700, 1986661051, 2177026350, 2456956037, 2730485921, 2820302411,
   3259730800, 3345764771, 3516065817, 3600352804, 4094571909, 275423344,
   430227734, 506948616, 659060556, 883997877, 958139571, 1322822218,
   1537002063, 1747873779, 1955562222, 2024104815, 2227730452, 2361852424,
   2428436474, 2756734187, 3204031479, 3329325298]

/-- The SHA-256 initial hash value H0..H7 of FIPS 180-4, in decimal:
H0 = 1779033703 = 0x6a09e667 and so on. -/
def shaH0 : List Nat :=
  [1779033703, 3144134277, 1013904242, 2773480762,
   1359893119, 2600822924, 528734635, 1541459225]

structure Sha256State where
  a : Nat
  b : Nat
  c : Nat
  d : Nat
  e : Nat
  f : Nat
  g : Nat
  hh : Nat

/-- One round of the SHA-256 compression function. -/
def shaRound (st : Sha256State) (k w : Nat) : Sha256State :=
  let s1 := rotr32 6 st.e ^^^ rotr32 11 st.e ^^^ rotr32 25 st.e
  let ch := (st.e &&& st.f) ^^^ ((st.e ^^^ 0xffffffff) &&& st.g)
  let t1 := (st.hh + s1 + ch + k + w) % pow32
  let s0 := rotr32 2 st.a ^^^ rotr32 13 st.a ^^^ rotr32 22 st.a
  let mj := (st.a &&& st.b) ^^^ (st.a &&& st.c) ^^^ (st.b &&& st.c)
  let t2 := (s0 + mj) % pow32
  ⟨(t1 + t2) % pow32, st.a, st.b, st.c, (st.d + t1) % pow32, st.e, st.f, st.g⟩

/-- Big-endian 32-bit words of a byte list. -/
def toWords : List Nat → List Nat
  | b0 :: b1 :: b2 :: b3 :: rest =>
    ((b0 <<< 24) + (b1 <<< 16) + (b2 <<< 8) + b3) % pow32 :: toWords rest
  | _ => []

/-- Append the next word of the SHA-256 message schedule. -/
def scheduleStep (ws : List Nat) : List Nat :=
  let n := ws.length
  let w15 := ws.getD (n - 15) 0
  let w2 := ws.getD (n - 2) 0
  let w16 := ws.getD (n - 16) 0
  let w7 := ws.getD (n - 7) 0
  let s0 := rotr32 7 w15 ^^^ rotr32 18 w15 ^^^ (w15 >>> 3)
  let s1 := rotr32 17 w2 ^^^ rotr32 19 w2 ^^^ (w2 >>> 10)
  ws ++ [(w16 + s0 + w7 + s1) % pow32]

def extendSchedule (ws : List Nat) : Nat → List Nat
  | 0 => ws
  | n + 1 => extendSchedule (scheduleStep ws) n

/-- SHA-256 compression of one 64-byte block into the running hash. -/
def compressBlock (hs : List Nat) (block : List Nat) : List Nat :=
  let ws := extendSchedule (toWords block) 48
  let init : Sha256State :=
    ⟨hs.getD 0 0, hs.getD 1 0, hs.getD 2 0, hs.getD 3 0,
     hs.getD 4 0, hs.getD 5 0, hs.getD 6 0, hs.getD 7 0⟩
  let fin := (ws.zip shaK).foldl (fun st wk => shaRound st wk.2 wk.1) init
  [(hs.getD 0 0 + fin.a) % pow32, (hs.getD 1 0 + fin.b) % pow32,
   (hs.getD 2 0 + fin.c) % pow32, (hs.getD 3 0 + fin.d) % pow32,
   (hs.getD 4 0 + fin.e) % pow32, (hs.getD 5 0 + fin.f) % pow32,
   (hs.getD 6 0 + fin.g) % pow32, (hs.getD 7 0 + fin.hh) % pow32]

/-- Split into 64-byte blocks.  Structural recursion on a fuel bound (the
list length) so that the definition reduces inside the kernel; each step
consumes at least one element, so the fuel is never exhausted. -/
def chunk64Go : Nat → List Nat → List (List Nat)
  | _, [] => []
  | 0, _ :: _ => []
  | fuel + 1, x :: xs => ((x :: xs).take 64) :: chunk64Go fuel ((x :: xs).drop 64)

def chunk64 (l : List Nat) : List (List Nat) := chunk64Go l.length l

/-- Big-endian bytes of one 32-bit word. -/
def bytesOfWord (w : Nat) : List Nat :=
  [(w >>> 24) % 256, (w >>> 16) % 256, (w >>> 8) % 256, w % 256]

def wordsToBytes (ws : List Nat) : List Nat := (ws.map bytesOfWord).flatten

/-- SHA-256: pad, split into 64-byte blocks, fold the compression
function; result as eight 32-bit words. -/
def sha256Words (msg : List Nat) : List Nat :=
  let len := msg.length
  let zeros := (55 + 64 - len % 64) % 64
  let lenBits := 8 * len
  let lenBytes := [(lenBits >>> 56) % 256, (lenBits >>> 48) % 256, (lenBits >>> 40) % 256,
                   (lenBits >>> 32) % 256, (lenBits >>> 24) % 256, (lenBits >>> 16) % 256,
                   (lenBits >>> 8) % 256, lenBits % 256]
  let padded := msg ++ 0x80 :: (List.replicate zeros 0 ++ lenBytes)
  (chunk64 padded).foldl compressBlock shaH0

/-- SHA-256 digest as a list of 32 bytes. -/
def sha256 (msg : List Nat) : List Nat := wordsToBytes (sha256Words msg)

/-- HMAC-SHA-256 (RFC 2104): hash keys longer than the 64-byte block,
zero-pad, then the nested inner/outer hashes with ipad/opad. -/
def hmacSha256 (key msg : List Nat) : List Nat :=
  let k0 := if key.length > 64 then sha256 key else key
  let kPad := k0 ++ List.replicate (64 - k0.length) 0
  let inner := sha256 ((kPad.map (fun b => b ^^^ 0x36)) ++ msg)
  sha256 ((kPad.map (fun b => b ^^^ 0x5c)) ++ inner)

/-! ## The WebCrypto calls made by `CryptoUtils.verifyGitHubSignature` -/

inductive JsError
  | dataError
deriving DecidableEq

/-- W3C WebCrypto `importKey("raw", keyData, HMAC/SHA-256, false,
["verify"])`: a zero-length raw HMAC key throws a DataError; any other
byte string becomes the key. -/
def importHmacKeyBytes (keyData : List Nat) : Except JsError (List Nat) :=
  if keyData = [] then Except.error JsError.dataError else Except.ok keyData

/-- W3C WebCrypto `verify("HMAC", key, signatureBuffer, data)`: compute
the HMAC-SHA-256 tag of `data` under `key` and compare it with
`signatureBuffer` for byte equality (a length mismatch simply compares
unequal). -/
def subtleVerifyHmac (key sigBuf data : List Nat) : Bool := hmacSha256 key data == sigBuf

/-- Body of the `try` block of `CryptoUtils.verifyGitHubSignature`
(src/utils/crypto.ts lines 13-32): strip the first `sha256=` occurrence,
hex-decode, import the key, verify.  Errors escape as `Except.error`. -/
def verifyGitHubSignatureCore (signature payload secret : String) : Except JsError Bool :=
  let signatureBuffer := hexToBuffer (replaceOnce sigTag signature.data)
  match importHmacKeyBytes (utf8 secret) with
  | Except.error e => Except.error e
  | Except.ok key => Except.ok (subtleVerifyHmac key signatureBuffer (utf8 payload))

/-- `CryptoUtils.verifyGitHubSignature` (src/utils/crypto.ts lines 8-37):
the `catch` clause turns any internal error into `false`. -/
def verifyGitHubSignature (signature payload secret : String) : Bool :=
  match verifyGitHubSignatureCore signature payload secret with
  | Except.ok b => b
  | Except.error _ => false

/-! ## Event registry and dispatch (`eventManager`) -/

/-- Outcome of one handler execution: normal return, or a raised /
rejected error. -/
inductive ExecOutcome
  | ok
  | failed (msg : String)
deriving DecidableEq

/-- Modelled from the spec: a `HandlerRegistration` (spec section 3) —
name, subscribed event-type identifiers, and the execute capability.  The
`Event` base class carrying these fields lives in src/types, which is not
among the available sources.  The payload is the raw body string (the
parsed JSON value is abstracted). -/
structure Handler where
  name : String
  events : List String
  execute : String → ExecOutcome

abbrev Registry := List (String × List Handler)

/-- Modelled from the spec: appending a handler to one event type's
ordered list in the index (spec section 4.2, `register`). -/
def addToIndex (r : Registry) (e : String) (h : Handler) : Registry :=
  match r with
  | [] => [(e, [h])]
  | (k, v) :: rest => if k = e then (k, v ++ [h]) :: rest else (k, v) :: addToIndex rest e h

/-- Modelled from the spec: `eventManager.register` (spec section 4.2) —
for each handler, for each subscribed event-type identifier, append the
handler to that event type's ordered list; src/managers/event-manager.ts
is not among the available sources. -/
def registerHandlers (hs : List Handler) : Registry :=
  hs.foldl (fun r h => h.events.foldl (fun r e => addToIndex r e h) r) []

/-- Modelled from the spec: `eventManager` lookup (spec section 4.2) —
the ordered handler list for an event type, empty (never an error) when
no handler subscribes to it. -/
def lookupIndex (r : Registry) (e : String) : List Handler :=
  match r with
  | [] => []
  | (k, v) :: rest => if e = k then v else lookupIndex rest e

/-- Modelled from the spec: `eventManager.emit` (spec section 4.3 rule
5) — invoke each matched handler sequentially with the payload, catching
per-handler failures so every handler in the list is attempted; the
returned log records each attempted handler and its outcome in order. -/
def emit (registry : Registry) (eventType body : String) : List (String × ExecOutcome) :=
  (lookupIndex registry eventType).map (fun h => (h.name, h.execute body))

/-! ## The webhook endpoint (`WebhookServer.handleGitHubWebhook`) -/

/-- The inbound request data read by `handleGitHubWebhook`: the
`Content-Type` header, the `X-GitHub-Event` header, the
`X-Hub-Signature-256` header (each `none` when absent), and the body
text. -/
structure WebhookRequest where
  contentType : Option String
  eventHeader : Option String
  signatureHeader : Option String
  body : String

/-- The observable outcome: HTTP status plus the handler-execution log
(empty on every abort path — no handler was invoked). -/
structure WebhookResponse where
  status : Nat
  executed : List (String × ExecOutcome)
deriving DecidableEq

/-- The tail of `handleGitHubWebhook` after the signature gate: parse
the JSON body (`parseOk` abstracts `JSON.parse` success; failure answers
400 "Invalid JSON"), then emit to the handlers and answer 202.  The
debug-artifact write is ignored on purpose: its errors are swallowed and
it does not affect the response. -/
def dispatchPayload (parseOk : String → Bool) (registry : Registry)
    (eventType body : String) : WebhookResponse :=
  if parseOk body then ⟨202, emit registry eventType body⟩ else ⟨400, []⟩

/-- `WebhookServer.handleGitHubWebhook` (src/main.ts lines 44-113):
content-type gate (400), event-type header gate (absent or empty string
is falsy — 400), then, when the secret is truthy (non-empty), the
signature gates (missing header — 401; failed verification — 401), then
JSON parsing and dispatch. -/
def handleGitHubWebhook (parseOk : String → Bool) (registry : Registry)
    (secret : String) (req : WebhookRequest) : WebhookResponse :=
  if req.contentType ≠ some "application/json" then ⟨400, []⟩
  else
    match req.eventHeader with
    | none => ⟨400, []⟩
    | some eventType =>
      if eventType = "" then ⟨400, []⟩
      else
        if secret = "" then dispatchPayload parseOk registry eventType req.body
        else
          match req.signatureHeader with
          | none => ⟨401, []⟩
          | some signature =>
            if verifyGitHubSignature signature req.body secret then
              dispatchPayload parseOk registry eventType req.body
            else ⟨401, []⟩

/-! ## Configuration (`ConfigManager.validateConfig` defaults) and the
event handlers -/

structure EventsEnabled where
  push : Bool
  issues : Bool
  workflow_run : Bool
  workflow_job : Bool

structure PushEventConfig where
  show_file_changes : Bool
  max_commits_shown : Nat
  show_commit_details : Bool
  embed_color : Nat

structure WorkflowRunEventConfig where
  show_duration : Bool
  show_conclusion : Bool
  embed_color : Nat

structure WorkflowJobEventConfig where
  show_steps : Bool
  show_runner : Bool
  embed_color : Nat

/-- The process-wide configuration sections the handlers read
(`Config.get("events", _)` and `Config.get("events_config", _)`);
`validateConfig` guarantees every key is present. -/
structure AppConfigModel where
  events : EventsEnabled
  pushConfig : PushEventConfig
  workflowRunConfig : WorkflowRunEventConfig
  workflowJobConfig : WorkflowJobEventConfig

/-- The defaults of `ConfigManager.validateConfig` (src/config.ts). -/
def defaultConfigModel : AppConfigModel :=
  { events := ⟨true, true, true, true⟩
    pushConfig := ⟨true, 5, true, 0x00ff00⟩
    workflowRunConfig := ⟨true, true, 0x0099ff⟩
    workflowJobConfig := ⟨false, true, 0x6600cc⟩ }

/-- JavaScript truthiness of an optional string (`undefined` and `""`
are falsy). -/
def jsTruthy (o : Option String) : Bool :=
  match o with
  | none => false
  | some s => s != ""

/-- One commit of a push payload (the fields `PushEvent.execute`
reads). -/
structure Commit where
  id : String
  message : String
  authorName : String
  added : List String
  removed : List String
  modified : List String

/-- The fields of a `push` payload that `PushEvent.execute` reads. -/
structure PushPayload where
  ref : String
  repoFullName : String
  commits : List Commit
  sender : String

/-- Summary of the Discord embed `PushEvent.execute` sends: every
decision the handler makes (string templating of the missing `Webhook`
helper module is elided, the counts and flags driving it are kept). -/
structure PushMessage where
  repoFullName : String
  branch : String
  commitCount : Nat
  addedCount : Nat
  removedCount : Nat
  modifiedCount : Nat
  shownCommits : Nat
  moreCommits : Bool
  detailFieldCount : Nat
  color : Nat
deriving DecidableEq

/-- `PushEvent.execute` (src/utils/crypto.ts lines 65-136 of the
combined source file): when the `events.push` flag is false it returns
immediately without sending; otherwise it computes the branch (another
first-occurrence `replace`), the aggregated file changes, the commit
window, and sends one notification. -/
def pushExecute (cfg : AppConfigModel) (p : PushPayload) : Option PushMessage :=
  if !cfg.events.push then none
  else
    let c := cfg.pushConfig
    let branch := String.mk (replaceOnce ("refs/heads/".data) p.ref.data)
    let fileChanges :=
      if c.show_file_changes then
        p.commits.foldl
          (fun acc commit =>
            (acc.1 ++ commit.added, acc.2.1 ++ commit.removed, acc.2.2 ++ commit.modified))
          (([], [], []) : List String × List String × List String)
      else ([], [], [])
    let commitsToShow := p.commits.take c.max_commits_shown
    let hasMoreCommits := decide (p.commits.length > c.max_commits_shown)
    let detailFieldCount :=
      if c.show_commit_details then commitsToShow.length + (if hasMoreCommits then 1 else 0)
      else 0
    some
      { repoFullName := p.repoFullName
        branch := branch
        commitCount := p.commits.length
        addedCount := fileChanges.1.length
        removedCount := fileChanges.2.1.length
        modifiedCount := fileChanges.2.2.length
        shownCommits := commitsToShow.length
        moreCommits := hasMoreCommits
        detailFieldCount := detailFieldCount
        color := c.embed_color }

/-- The fields of `payload.workflow_run` that `WorkflowRunEvent.execute`
reads. -/
structure WorkflowRunData where
  name : String
  conclusion : Option String
  run_started_at : Option String
  updated_at : Option String
  id : Nat

/-- The fields of a `workflow_run` payload that
`WorkflowRunEvent.execute` reads. -/
structure WorkflowRunPayload where
  action : String
  workflow_run : WorkflowRunData
  repoFullName : String
  sender : String

/-- `WorkflowRunEvent.getStatusText` (src/events/workflow-run.ts lines
104-117). -/
def workflowRunStatusText (conclusion : Option String) : String :=
  match conclusion with
  | some "success" => "succeeded"
  | some "failure" => "failed"
  | some "cancelled" => "was cancelled"
  | some "skipped" => "was skipped"
  | _ => "completed"

/-- Summary of the Discord embed `WorkflowRunEvent.execute` sends. -/
structure RunMessage where
  workflowName : String
  statusText : String
  hasConclusionField : Bool
  hasDurationField : Bool
  runId : Nat
  color : Nat
deriving DecidableEq

/-- `WorkflowRunEvent.execute` (src/events/workflow-run.ts lines
16-102): returns immediately when the `events.workflow_run` flag is
false, then again when `action !== "completed"`; otherwise sends one
notification whose fields and color are decided as in the source. -/
def workflowRunExecute (cfg : AppConfigModel) (p : WorkflowRunPayload) : Option RunMessage :=
  if !cfg.events.workflow_run then none
  else
    let c := cfg.workflowRunConfig
    if p.action != "completed" then none
    else
      let color :=
        if p.workflow_run.conclusion = some "success" then 0x28a745
        else if p.workflow_run.conclusion = some "failure" then 0xdc3545
        else if p.workflow_run.conclusion = some "cancelled" then 0x6c757d
        else c.embed_color
      some
        { workflowName := p.workflow_run.name
          statusText := workflowRunStatusText p.workflow_run.conclusion
          hasConclusionField := c.show_conclusion && jsTruthy p.workflow_run.conclusion
          hasDurationField :=
            c.show_duration && jsTruthy p.workflow_run.run_started_at
              && jsTruthy p.workflow_run.updated_at
          runId := p.workflow_run.id
          color := color }

/-- The fields of `payload.workflow_job` that `WorkflowJobEvent.execute`
reads. -/
structure WorkflowJobData where
  name : String
  conclusion : Option String
  started_at : Option String
  completed_at : Option String
  runner_name : Option String
  id : Nat

/-- The fields of a `workflow_job` payload that
`WorkflowJobEvent.execute` reads. -/
structure WorkflowJobPayload where
  action : String
  workflow_job : WorkflowJobData
  repoFullName : String
  sender : String

/-- `WorkflowJobEvent.getStatusText` (identical private copy in the
workflow-job source file). -/
def workflowJobStatusText (conclusion : Option String) : String :=
  match conclusion with
  | some "success" => "succeeded"
  | some "failure" => "failed"
  | some "cancelled" => "was cancelled"
  | some "skipped" => "was skipped"
  | _ => "completed"

/-- Summary of the Discord embed `WorkflowJobEvent.execute` sends. -/
structure JobMessage where
  jobName : String
  statusText : String
  hasConclusionField : Bool
  hasDurationField : Bool
  hasRunnerField : Bool
  jobId : Nat
  color : Nat
deriving DecidableEq

/-- `WorkflowJobEvent.execute`: returns immediately when the
`events.workflow_job` flag is false, then again when
`action !== "completed"`; otherwise sends one notification. -/
def workflowJobExecute (cfg : AppConfigModel) (p : WorkflowJobPayload) : Option JobMessage :=
  if !cfg.events.workflow_job then none
  else
    let c := cfg.workflowJobConfig
    if p.action != "completed" then none
    else
      let color :=
        if p.workflow_job.conclusion = some "success" then 0x28a745
        else if p.workflow_job.conclusion = some "failure" then 0xdc3545
        else if p.workflow_job.conclusion = some "cancelled" then 0x6c757d
        else c.embed_color
      some
        { jobName := p.workflow_job.name
          statusText := workflowJobStatusText p.workflow_job.conclusion
          hasConclusionField := jsTruthy p.workflow_job.conclusion
          hasDurationField :=
            jsTruthy p.workflow_job.started_at && jsTruthy p.workflow_job.completed_at
          hasRunnerField := c.show_runner && jsTruthy p.workflow_job.runner_name
          jobId := p.workflow_job.id
          color := color }

/-! ## Concrete fixtures used by witnesses -/

/-- A handler named H1 subscribed to `push` (spec section 8, registry
scenario). -/
def handlerH1 : Handler := ⟨"H1", ["push"], fun _ => ExecOutcome.ok⟩

/-- A handler named H2 subscribed to `push` and `issues`. -/
def handlerH2 : Handler := ⟨"H2", ["push", "issues"], fun _ => ExecOutcome.ok⟩

/-- A handler whose execute always raises. -/
def failingHandler : Handler := ⟨"F", ["push"], fun _ => ExecOutcome.failed "boom"⟩

/-- A configuration with every per-event-type enable flag false. -/
def cfgAllOff : AppConfigModel :=
  { defaultConfigModel with events := ⟨false, false, false, false⟩ }

/-- A sample push payload. -/
def samplePush : PushPayload := ⟨"refs/heads/main", "kittens-inc/webhook", [], "cat"⟩

/-- A sample workflow_run payload whose action is not `completed`. -/
def sampleRun : WorkflowRunPayload :=
  ⟨"requested", ⟨"CI", some "success", some "t0", some "t1", 7⟩, "kittens-inc/webhook", "cat"⟩

/-- A sample workflow_job payload whose action is not `completed`. -/
def sampleJob : WorkflowJobPayload :=
  ⟨"requested", ⟨"build", some "success", some "t0", some "t1", some "runner-1", 9⟩,
   "kittens-inc/webhook", "cat"⟩

/-! ## Sanity checks of the cryptographic model against standard test
vectors (FIPS 180-4 examples and the RFC 2202-style HMAC vector) -/

theorem sha256_vector_empty :
    String.mk (hexEncode (sha256 [])) =
      "e3b0c44298fc1c149afbf4c8996fb92427ae41e4649b934ca495991b7852b855" := by decide

theorem sha256_vector_abc :
    String.mk (hexEncode (sha256 (utf8 "abc"))) =
      "ba7816bf8f01cfea414140de5dae2223b00361a396177a9cb410ff61f20015ad" := by decide

theorem hmac_vector_quick_fox :
    String.mk (hexEncode (hmacSha256 (utf8 "key")
        (utf8 "The quick brown fox jumps over the lazy dog"))) =
      "f7bc83f430538424b13298e6aa6fb143ef4d59a14946175997479dbc2d1a3cd8" := by decide

/-! ## Helper lemmas -/

theorem utf8EncodeChar_ne_nil (c : Char) : utf8EncodeChar c ≠ [] := by
  simp only [utf8EncodeChar]
  repeat' split
  all_goals simp

theorem utf8_ne_nil (s : String) (hs : s ≠ "") : utf8 s ≠ [] := by
  cases s with
  | mk data =>
    cases data with
    | nil => exact absurd rfl hs
    | cons c cs =>
      show utf8EncodeChar c ++ utf8Bytes cs ≠ []
      simp [utf8EncodeChar_ne_nil]

theorem bytesOfWord_lt (w : Nat) : ∀ b ∈ bytesOfWord w, b < 256 := by
  intro b hb
  simp [bytesOfWord] at hb
  rcases hb with rfl | rfl | rfl | rfl <;> exact Nat.mod_lt _ (by norm_num)

theorem wordsToBytes_lt (ws : List Nat) : ∀ b ∈ wordsToBytes ws, b < 256 := by
  intro b hb
  simp only [wordsToBytes, List.mem_flatten, List.mem_map] at hb
  obtain ⟨l, ⟨w, _, rfl⟩, hbl⟩ := hb
  exact bytesOfWord_lt w b hbl

theorem sha256_byte_lt (m : List Nat) : ∀ b ∈ sha256 m, b < 256 :=
  fun b hb => wordsToBytes_lt (sha256Words m) b hb

theorem hmacSha256_byte_lt (key msg : List Nat) : ∀ b ∈ hmacSha256 key msg, b < 256 := by
  intro b hb
  unfold hmacSha256 at hb
  exact sha256_byte_lt _ b hb

theorem hexPairByte_hexDigits :
    ∀ b, b < 256 → hexPairByte [hexDigitChar (b / 16), hexDigitChar (b % 16)] = b := by decide

theorem hexToBuffer_hexEncode :
    ∀ (bs : List Nat), (∀ b ∈ bs, b < 256) → hexToBuffer (hexEncode bs) = bs := by
  intro bs
  induction bs with
  | nil => intro _; rfl
  | cons b rest ih =>
    intro hb
    have hb0 : b < 256 := hb b (by simp)
    have hbr : ∀ x ∈ rest, x < 256 := fun x hx => hb x (by simp [hx])
    show hexPairByte [hexDigitChar (b / 16), hexDigitChar (b % 16)] :: hexToBuffer (hexEncode rest)
        = b :: rest
    rw [hexPairByte_hexDigits b hb0, ih hbr]

theorem stripLead_append (pat rest : List Char) : stripLead pat (pat ++ rest) = some rest := by
  induction pat with
  | nil => rfl
  | cons p ps ih => simp [stripLead, ih]

theorem replaceOnce_append (pat rest : List Char) (hp : pat ≠ []) :
    replaceOnce pat (pat ++ rest) = rest := by
  cases pat with
  | nil => exact absurd rfl hp
  | cons p ps =>
    show replaceOnce (p :: ps) (p :: (ps ++ rest)) = rest
    unfold replaceOnce
    rw [← List.cons_append, stripLead_append]

theorem replaceOnce_of_not_occursIn (pat : List Char) :
    ∀ s : List Char, occursIn pat s = false → replaceOnce pat s = s := by
  intro s
  induction s with
  | nil => intro _; rfl
  | cons c cs ih =>
    intro h
    simp only [occursIn, Bool.or_eq_false_iff] at h
    obtain ⟨h1, h2⟩ := h
    unfold replaceOnce
    cases hst : stripLead pat (c :: cs) with
    | some rest => rw [hst] at h1; simp at h1
    | none => simp [ih h2]

theorem verify_characterization (sig body secret : String) :
    verifyGitHubSignature sig body secret =
      (!(utf8 secret).isEmpty &&
        (hmacSha256 (utf8 secret) (utf8 body) == hexToBuffer (replaceOnce sigTag sig.data))) := by
  unfold verifyGitHubSignature verifyGitHubSignatureCore importHmacKeyBytes subtleVerifyHmac
  cases h : utf8 secret with
  | nil => simp [h]
  | cons c cs => simp [h]

/-! ## Claim theorems -/

/-- C1 (amended): for every body and every non-empty secret, calling
verify with the signature header `sha256=` followed by the lowercase hex
encoding of HMAC-SHA256(secret, body) returns true.  (The restriction to
non-empty secrets is forced: WebCrypto rejects a zero-length raw HMAC
key, so the `catch` clause makes verify return false when the secret is
the empty string — see the counterexample.) -/
theorem verify_accepts_valid_signature (body secret : String) (hs : secret ≠ "") :
    verifyGitHubSignature
      ("sha256=" ++ String.mk (hexEncode (hmacSha256 (utf8 secret) (utf8 body))))
      body secret = true := by
  rw [verify_characterization]
  have h2 : ("sha256=" ++ String.mk (hexEncode (hmacSha256 (utf8 secret) (utf8 body)))).data
      = sigTag ++ hexEncode (hmacSha256 (utf8 secret) (utf8 body)) := by
    rw [String.data_append]; rfl
  rw [h2, replaceOnce_append sigTag _ (by decide),
      hexToBuffer_hexEncode _ (hmacSha256_byte_lt _ _)]
  cases h : utf8 secret with
  | nil => exact absurd h (utf8_ne_nil secret hs)
  | cons c cs => simp

/-- C1 witness: the round-trip property at body `"ab"`, secret `"k"`. -/
theorem verify_accepts_valid_signature_witness :
    verifyGitHubSignature
      ("sha256=" ++ String.mk (hexEncode (hmacSha256 (utf8 "k") (utf8 "ab"))))
      "ab" "k" = true :=
  verify_accepts_valid_signature "ab" "k" (by decide)

/-- C1 counterexample: the claim quantifies over every secret, but at the
empty secret the WebCrypto key import throws (zero-length raw HMAC key)
and the `catch` clause returns false even for the correctly computed
signature header. -/
theorem verify_empty_secret_counterexample :
    verifyGitHubSignature
      ("sha256=" ++ String.mk (hexEncode (hmacSha256 (utf8 "") (utf8 "x"))))
      "x" "" = false := by
  rw [verify_characterization]
  rfl

/-- C2 (amended): verify is total — every internal error (such as the
key-import failure) is caught and yields false rather than a propagated
exception, and for all inputs its value is characterised as: the secret
is non-empty and the lenient hex decode of the header (after removing
the first `sha256=` occurrence) equals the computed HMAC.  Malformedness
of the header alone does not guarantee false: the lenient JavaScript
decode (`parseInt` longest-prefix parsing, NaN stored as 0, a trailing
odd digit dropped) can map a malformed header to the correct MAC — see
the counterexample. -/
theorem verify_total_characterization (sig body secret : String) :
    verifyGitHubSignature sig body secret =
      (!(utf8 secret).isEmpty &&
        (hmacSha256 (utf8 secret) (utf8 body) == hexToBuffer (replaceOnce sigTag sig.data))) ∧
    (∀ e, verifyGitHubSignatureCore sig body secret = Except.error e →
      verifyGitHubSignature sig body secret = false) := by
  refine ⟨verify_characterization sig body secret, fun e he => ?_⟩
  unfold verifyGitHubSignature
  rw [he]

/-- C2 witness: at the empty secret the core computation does throw, and
the caller still observes `false`, not an exception. -/
theorem verify_total_characterization_witness :
    verifyGitHubSignature "z" "x" "" = false :=
  (verify_total_characterization "z" "x" "").2 JsError.dataError rfl

/-- C2 counterexample: a malformed signature header — it contains the
non-hex character `z` — on which verify returns true rather than false.
The header is the valid signature of body `"payload"` under secret `"k"`
(HMAC hex `53e1cedd550e0e69...`) with the hex pair `0e` at byte index 5
replaced by `ez`: JavaScript `parseInt("ez", 16)` parses the longest
valid prefix `e` and yields 14 = 0x0e, so the buffer decodes to the
correct MAC and the comparison succeeds. -/
theorem verify_malformed_header_counterexample :
    hexDigitVal 'z' = none ∧
    ('z' ∈ ("sha256=53e1cedd55ez0e693ce03bafe5ae424d9f292717018d586aaade877481dc824c").data) ∧
    verifyGitHubSignature
      "sha256=53e1cedd55ez0e693ce03bafe5ae424d9f292717018d586aaade877481dc824c"
      "payload" "k" = true := by
  refine ⟨rfl, by decide, by decide⟩

/-- C8 counterexample: a header that does not begin with `sha256=` but
contains it in the middle; `signature.replace("sha256=", "")` removes
that middle occurrence, so the hex-decode step does not receive the
full, unmodified header string. -/
theorem strip_tag_midstring_counterexample :
    beginsWithTag "00sha256=ff" = false ∧
    replaceOnce sigTag ("00sha256=ff").data = ("00ff").data ∧
    replaceOnce sigTag ("00sha256=ff").data ≠ ("00sha256=ff").data := by
  refine ⟨rfl, by decide, by decide⟩

/-- C8 (amended): verify strips the first occurrence of `sha256=`
anywhere in the header before hex-decoding; only when `sha256=` occurs
nowhere in the header does the hex-decode step apply to the full,
unmodified header string. -/
theorem strip_tag_identity_when_tag_absent (s : String)
    (h : occursIn sigTag s.data = false) :
    replaceOnce sigTag s.data = s.data :=
  replaceOnce_of_not_occursIn sigTag s.data h

/-- C8 witness: a header with no `sha256=` occurrence is decoded whole. -/
theorem strip_tag_identity_when_tag_absent_witness :
    replaceOnce sigTag ("0123abcd").data = ("0123abcd").data :=
  strip_tag_identity_when_tag_absent "0123abcd" (by decide)

/-- C3: for every inbound POST with valid content type and a non-empty
event-type header, when a secret is configured (non-empty): an absent
signature header is answered 401 with no handler invoked, and a present
signature header that SignatureVerifier rejects is answered 401 with no
handler invoked. -/
theorem webhook_unauthorized_on_bad_or_missing_signature
    (parseOk : String → Bool) (registry : Registry) (secret : String)
    (req : WebhookRequest) (eventType : String)
    (hsecret : secret ≠ "")
    (hct : req.contentType = some "application/json")
    (hev : req.eventHeader = some eventType) (hne : eventType ≠ "") :
    (req.signatureHeader = none →
      handleGitHubWebhook parseOk registry secret req = ⟨401, []⟩) ∧
    (∀ s, req.signatureHeader = some s →
      verifyGitHubSignature s req.body secret = false →
      handleGitHubWebhook parseOk registry secret req = ⟨401, []⟩) := by
  constructor
  · intro hsig
    simp [handleGitHubWebhook, hct, hev, hne, hsecret, hsig]
  · intro s hsig hval
    simp [handleGitHubWebhook, hct, hev, hne, hsecret, hsig, hval]

/-- C3 witness: with secret `"k"`, a request with no signature header is
answered 401 and no handler runs; likewise with signature header
`"bad"`, which the verifier rejects. -/
theorem webhook_unauthorized_witness :
    handleGitHubWebhook (fun _ => true) [] "k"
      ⟨some "application/json", some "push", none, "x"⟩ = ⟨401, []⟩ ∧
    handleGitHubWebhook (fun _ => true) [] "k"
      ⟨some "application/json", some "push", some "bad", "x"⟩ = ⟨401, []⟩ :=
  ⟨(webhook_unauthorized_on_bad_or_missing_signature (fun _ => true) [] "k"
      ⟨some "application/json", some "push", none, "x"⟩ "push"
      (by decide) rfl rfl (by decide)).1 rfl,
   (webhook_unauthorized_on_bad_or_missing_signature (fun _ => true) [] "k"
      ⟨some "application/json", some "push", some "bad", "x"⟩ "push"
      (by decide) rfl rfl (by decide)).2 "bad" rfl (by decide)⟩

/-- C4 (spec-modelled dispatch loop): for every matched handler list and
payload, even when the handler at position `i` fails, dispatch still
answers 202 and the execution log covers every matched handler exactly
once, in registration order — one handler's failure neither prevents the
later handlers from running nor fails the dispatch. -/
theorem dispatch_isolates_handler_failure
    (parseOk : String → Bool) (registry : Registry) (eventType body : String)
    (i : Nat) (hi : i < (lookupIndex registry eventType).length)
    (hparse : parseOk body = true)
    (hfail : ((lookupIndex registry eventType).get ⟨i, hi⟩).execute body ≠ ExecOutcome.ok) :
    (dispatchPayload parseOk registry eventType body).status = 202 ∧
    (dispatchPayload parseOk registry eventType body).executed.map Prod.fst =
      (lookupIndex registry eventType).map Handler.name := by
  constructor
  · simp [dispatchPayload, hparse]
  · simp [dispatchPayload, hparse, emit, List.map_map]

/-- C4 witness: a failing handler registered in front of H2 on `push`
does not stop H2 — both appear in the execution log and the status is
202. -/
theorem dispatch_isolates_handler_failure_witness :
    (dispatchPayload (fun _ => true) (registerHandlers [failingHandler, handlerH2])
        "push" "x").status = 202 ∧
    (dispatchPayload (fun _ => true) (registerHandlers [failingHandler, handlerH2])
        "push" "x").executed.map Prod.fst =
      (lookupIndex (registerHandlers [failingHandler, handlerH2]) "push").map Handler.name :=
  dispatch_isolates_handler_failure (fun _ => true)
    (registerHandlers [failingHandler, handlerH2]) "push" "x" 0
    (by decide) rfl (by decide)

/-- C6: every request whose declared content type is not exactly
`application/json` is answered 400 and no handler is invoked, regardless
of the other headers and the body. -/
theorem webhook_rejects_bad_content_type
    (parseOk : String → Bool) (registry : Registry) (secret : String)
    (req : WebhookRequest)
    (hct : req.contentType ≠ some "application/json") :
    handleGitHubWebhook parseOk registry secret req = ⟨400, []⟩ := by
  unfold handleGitHubWebhook
  rw [if_pos hct]

/-- C6 witness: content type `text/plain` is answered 400 with no
handler invoked. -/
theorem webhook_rejects_bad_content_type_witness :
    handleGitHubWebhook (fun _ => true) [] "k"
      ⟨some "text/plain", some "push", some "any", "x"⟩ = ⟨400, []⟩ :=
  webhook_rejects_bad_content_type (fun _ => true) [] "k"
    ⟨some "text/plain", some "push", some "any", "x"⟩ (by decide)

/-- C7 (spec-modelled registry): after registering H1 (subscribed to
`push`) then H2 (subscribed to `push` and `issues`), lookup of `push`
returns [H1, H2] in order, lookup of `issues` returns [H2], and lookup
of any event type neither subscribes to returns the empty list, never an
error. -/
theorem registry_lookup_ordered :
    lookupIndex (registerHandlers [handlerH1, handlerH2]) "push" = [handlerH1, handlerH2] ∧
    lookupIndex (registerHandlers [handlerH1, handlerH2]) "issues" = [handlerH2] ∧
    ∀ e : String, e ∉ handlerH1.events → e ∉ handlerH2.events →
      lookupIndex (registerHandlers [handlerH1, handlerH2]) e = [] := by
  refine ⟨rfl, rfl, ?_⟩
  intro e h1 h2
  have he1 : e ≠ "push" := by simpa [handlerH1] using h1
  have he2 : e ≠ "issues" := by
    intro h
    exact h2 (by simp [handlerH2, h])
  show lookupIndex [("push", [handlerH1, handlerH2]), ("issues", [handlerH2])] e = []
  simp [lookupIndex, he1, he2]

/-- C7 witness: lookup of the unsubscribed event type `unknown` on the
concrete registry returns the empty list. -/
theorem registry_lookup_ordered_witness :
    lookupIndex (registerHandlers [handlerH1, handlerH2]) "unknown" = [] :=
  registry_lookup_ordered.2.2 "unknown" (by decide) (by decide)

/-- C9: when the process-wide per-event-type enable flag for a handler's
event type is false, that handler's execute returns a no-op outcome —
no outbound notification value — and not a failure (the return type has
no failure alternative on this path), for every payload. -/
theorem handlers_disabled_noop
    (cfg : AppConfigModel) (p1 : PushPayload) (p2 : WorkflowRunPayload)
    (p3 : WorkflowJobPayload) :
    (cfg.events.push = false → pushExecute cfg p1 = none) ∧
    (cfg.events.workflow_run = false → workflowRunExecute cfg p2 = none) ∧
    (cfg.events.workflow_job = false → workflowJobExecute cfg p3 = none) := by
  refine ⟨fun h => ?_, fun h => ?_, fun h => ?_⟩
  · simp [pushExecute, h]
  · simp [workflowRunExecute, h]
  · simp [workflowJobExecute, h]

/-- C9 witness: with every enable flag false, each of the three handlers
returns the no-op outcome on a sample payload. -/
theorem handlers_disabled_noop_witness :
    pushExecute cfgAllOff samplePush = none ∧
    workflowRunExecute cfgAllOff sampleRun = none ∧
    workflowJobExecute cfgAllOff sampleJob = none :=
  ⟨(handlers_disabled_noop cfgAllOff samplePush sampleRun sampleJob).1 rfl,
   (handlers_disabled_noop cfgAllOff samplePush sampleRun sampleJob).2.1 rfl,
   (handlers_disabled_noop cfgAllOff samplePush sampleRun sampleJob).2.2 rfl⟩

/-- C10: for every workflow_run payload and every workflow_job payload
whose action is not `completed`, the corresponding handler returns
without sending any outbound notification, even when the event type is
enabled in configuration. -/
theorem workflow_handlers_skip_uncompleted
    (cfg : AppConfigModel) (p2 : WorkflowRunPayload) (p3 : WorkflowJobPayload) :
    (cfg.events.workflow_run = true → p2.action ≠ "completed" →
      workflowRunExecute cfg p2 = none) ∧
    (cfg.events.workflow_job = true → p3.action ≠ "completed" →
      workflowJobExecute cfg p3 = none) := by
  constructor
  · intro hf ha
    simp [workflowRunExecute, hf, ha]
  · intro hf ha
    simp [workflowJobExecute, hf, ha]

/-- C10 witness: with the default configuration (both flags enabled),
the sample payloads with action `requested` produce no notification. -/
theorem workflow_handlers_skip_uncompleted_witness :
    workflowRunExecute defaultConfigModel sampleRun = none ∧
    workflowJobExecute defaultConfigModel sampleJob = none :=
  ⟨(workflow_handlers_skip_uncompleted defaultConfigModel sampleRun sampleJob).1
      rfl (by decide),
   (workflow_handlers_skip_uncompleted defaultConfigModel sampleRun sampleJob).2
      rfl (by decide)⟩
